import Mathlib

/-!
# Verification of the NEP-21 basic fungible-token contract

A shallow embedding of `src/contracts/assemblyscript/nep21-basic`
(`models.ts`, `main.ts`) and the non-spec `mint` method, together with
theorems about the claims of the specification.

Modelling conventions:
* `u128` amounts are `Nat` with explicit wrapping (`% 2 ^ 128`) where the
  source performs unchecked `u128.add` / `u128.sub`.
* `near-sdk-as` `PersistentMap` is a key/value store keyed by strings; we
  model it as an association list with update-or-insert `set`, first-match
  `get`, and `contains`.  Starting from the empty map, keys are unique, so
  this refines the storage-backed map exactly.
* An AssemblyScript `assert` aborts the NEAR call and rolls back every
  state change of the call, so each contract method is a function
  `... → Contract → Except String Contract`: `Except.error msg` is a
  failed call (whose state mutations are all reverted — no new state is
  produced), `Except.ok s` is a completed call with post-state `s`.
* `context.sender` / `context.predecessor` is passed as an explicit
  first argument to each method.
-/

/-- Source `types.ts`: `export type AccountId = string`. -/
abbrev AccountId : Type := String

/-- Source `types.ts`: `export type Amount = u128`, modelled as `Nat`
(values produced by the contract stay below `U128_MOD`). -/
abbrev Amount : Type := Nat

/-- The modulus of `u128` arithmetic. -/
def U128_MOD : Nat := 2 ^ 128

/-- Model of `u128.add`: wrapping 128-bit addition. -/
def u128add (a b : Nat) : Nat := (a + b) % U128_MOD

/-- Model of `u128.sub`: wrapping 128-bit subtraction (exact on the guarded uses
`b ≤ a < U128_MOD` that occur in the contract). -/
def u128sub (a b : Nat) : Nat := (U128_MOD + a - b) % U128_MOD

/-- Source `models.ts` line 8: `export const TOTAL_SUPPLY = u128.from(10)`. -/
def TOTAL_SUPPLY : Amount := 10

/-- Source `models.ts` `getAllowanceKey`: `owner_id + ":" + escrow_id`. -/
def getAllowanceKey (owner_id escrow_id : AccountId) : String :=
  owner_id ++ ":" ++ escrow_id

/-- Model of `near-sdk-as` `PersistentMap` contents: an association list
with at most one live entry per key (first match wins, and `pmSet`
replaces the first match in place). -/
abbrev PMap (K V : Type) : Type := List (K × V)

/-- Model of `PersistentMap.get(key)` (with `none` for a missing key). -/
def pmGet {K V : Type} [DecidableEq K] : PMap K V → K → Option V
  | [], _ => none
  | p :: t, k => if p.1 = k then some p.2 else pmGet t k

/-- Model of `PersistentMap.get(key, defaultValue)!` and, under a `contains`
guard, `PersistentMap.getSome(key)`. -/
def pmGetD {K V : Type} [DecidableEq K] (m : PMap K V) (k : K) (d : V) : V :=
  (pmGet m k).getD d

/-- Model of `PersistentMap.contains(key)`. -/
def pmContains {K V : Type} [DecidableEq K] : PMap K V → K → Bool
  | [], _ => false
  | p :: t, k => if p.1 = k then true else pmContains t k

/-- Model of `PersistentMap.set(key, value)`: overwrite the entry for `key`,
inserting it if absent. -/
def pmSet {K V : Type} [DecidableEq K] : PMap K V → K → V → PMap K V
  | [], k, v => [(k, v)]
  | p :: t, k, v => if p.1 = k then (k, v) :: t else p :: pmSet t k v

/-- The persistent state of the contract: the two one-time flags and
the two registries of `models.ts`.  `init` of `main.ts` guards the
storage key `'m'` (`HAS_BEEN_MINTED`) while the non-spec `mint` guards
the distinct storage key `'minted'`, so the two flags are separate
fields. -/
structure Contract where
  hasBeenMinted : Bool
  minted : Bool
  balanceRegistry : PMap AccountId Amount
  allowanceRegistry : PMap String Amount
  deriving DecidableEq, Repr

/-- The state of a freshly deployed contract: empty storage. -/
def emptyContract : Contract :=
  { hasBeenMinted := false, minted := false, balanceRegistry := [], allowanceRegistry := [] }

/-- The sum of every balance recorded in the balance registry. -/
def sumBalances (s : Contract) : Nat :=
  (s.balanceRegistry.map (fun p => p.2)).sum

/-- Error string of `main.ts` line 14. -/
def ERR_INVALID_AMOUNT : String := "Allowance must be greater than zero"

/-- Error string of `main.ts` line 15. -/
def ERR_INVALID_ACCOUNT : String := "Account not found in registry"

/-- Error string of `main.ts` line 16. -/
def ERR_INVALID_ESCROW_ACCOUNT : String :=
  "Escrow account not found in registry"

/-- Error string of `main.ts` line 17. -/
def ERR_INSUFFICIENT_BALANCE : String :=
  "Account does not have enough balance for this transaction"

/-- Error string of `main.ts` line 18. -/
def ERR_INSUFFICIENT_ESCROW_BALANCE : String :=
  "Escrow account does not have enough allowance for this transaction"

/-- Error string of `main.ts` line 19. -/
def ERR_TOKEN_ALREADY_MINTED : String := "Token has previously been minted"

/-- Source `main.ts` `init()`: asserts the one-time flag at storage key
`'m'` (`HAS_BEEN_MINTED`) is unset, assigns `TOTAL_SUPPLY` to
`context.sender`, then records that flag. -/
def init (sender : AccountId) (s : Contract) : Except String Contract :=
  if s.hasBeenMinted then .error ERR_TOKEN_ALREADY_MINTED
  else .ok { s with
    balanceRegistry := pmSet s.balanceRegistry sender TOTAL_SUPPLY,
    hasBeenMinted := true }

/-- Source `non-spec.ts` `mint(owner_id)`: like `init` but the initial
owner is the `owner_id` argument, and the one-time guard is the storage
key `'minted'` — a key distinct from the `'m'` key that `init` uses. -/
def mint (owner_id : AccountId) (s : Contract) : Except String Contract :=
  if s.minted then .error ERR_TOKEN_ALREADY_MINTED
  else .ok { s with
    balanceRegistry := pmSet s.balanceRegistry owner_id TOTAL_SUPPLY,
    minted := true }

/-- Source `main.ts` `set_allowance(escrow_account_id, allowance)`: asserts
`allowance > 0`, then writes the allowance under
`getAllowanceKey(context.predecessor, escrow_account_id)`. -/
def set_allowance (predecessor escrow_account_id : AccountId)
    (allowance : Amount) (s : Contract) : Except String Contract :=
  if allowance > 0 then
    let key := getAllowanceKey predecessor escrow_account_id
    .ok { s with allowanceRegistry := pmSet s.allowanceRegistry key allowance }
  else .error ERR_INVALID_AMOUNT

/-- Source `main.ts` `transfer_from(owner_id, new_owner_id, amount)` called by
`predecessor`.  Checks, in source order: `amount > 0`; the owner is in
the balance registry; the owner's balance covers `amount`; and, when the
caller is not the owner, that an allowance record for
`(owner_id, predecessor)` exists and covers `amount`, decrementing it.
Finally it reads both balances and writes the debited owner balance,
then the credited `new_owner_id` balance (in that order). -/
def transfer_from (predecessor owner_id new_owner_id : AccountId)
    (amount : Amount) (s : Contract) : Except String Contract :=
  if amount > 0 then
    if pmContains s.balanceRegistry owner_id then
      if pmGetD s.balanceRegistry owner_id 0 ≥ amount then
        let escrowStep : Except String Contract :=
          if owner_id ≠ predecessor then
            let key := getAllowanceKey owner_id predecessor
            if pmContains s.allowanceRegistry key then
              let allowance := pmGetD s.allowanceRegistry key 0
              if allowance ≥ amount then
                let reg := pmSet s.allowanceRegistry key (u128sub allowance amount)
                .ok { s with allowanceRegistry := reg }
              else .error ERR_INSUFFICIENT_ESCROW_BALANCE
            else .error ERR_INVALID_ESCROW_ACCOUNT
          else .ok s
        match escrowStep with
        | .error e => .error e
        | .ok s1 =>
          let balanceOfOwner := pmGetD s1.balanceRegistry owner_id 0
          let balanceOfNewOwner := pmGetD s1.balanceRegistry new_owner_id 0
          let reg1 := pmSet s1.balanceRegistry owner_id (u128sub balanceOfOwner amount)
          let reg2 := pmSet reg1 new_owner_id (u128add balanceOfNewOwner amount)
          .ok { s1 with balanceRegistry := reg2 }
      else .error ERR_INSUFFICIENT_BALANCE
    else .error ERR_INVALID_ACCOUNT
  else .error ERR_INVALID_AMOUNT

/-- Source `main.ts` `transfer(new_owner_id, amount)`: behaves as
`transfer_from` with `owner_id` equal to the caller. -/
def transfer (predecessor new_owner_id : AccountId) (amount : Amount)
    (s : Contract) : Except String Contract :=
  transfer_from predecessor predecessor new_owner_id amount s

/-- Source `main.ts` `get_total_supply()`. -/
def get_total_supply : Amount := TOTAL_SUPPLY

/-- Source `main.ts` `get_balance(owner_id)`: asserts the account is in the
balance registry, then returns its stored balance. -/
def get_balance (owner_id : AccountId) (s : Contract) :
    Except String Amount :=
  if pmContains s.balanceRegistry owner_id then
    .ok (pmGetD s.balanceRegistry owner_id 0)
  else .error ERR_INVALID_ACCOUNT

/-- Source `main.ts` `get_allowance(owner_id, escrow_account_id)`: total — it
returns `allowanceRegistry.get(key, u128.Zero)!`, never failing. -/
def get_allowance (owner_id escrow_account_id : AccountId)
    (s : Contract) : Amount :=
  pmGetD s.allowanceRegistry
    (getAllowanceKey owner_id escrow_account_id) 0

/-! ## Lemmas about the map model -/

/-- Reading the key just written returns the written value. -/
theorem pmGet_pmSet_self {K V : Type} [DecidableEq K] (m : PMap K V)
    (k : K) (v : V) : pmGet (pmSet m k v) k = some v := by
  induction m with
  | nil => simp [pmSet, pmGet]
  | cons p t ih =>
    by_cases h : p.1 = k
    · simp [pmSet, pmGet, h]
    · simp [pmSet, pmGet, h, ih]

/-- Writing one key leaves the value read at any other key unchanged. -/
theorem pmGet_pmSet_ne {K V : Type} [DecidableEq K] (m : PMap K V)
    {k k' : K} (v : V) (h : k' ≠ k) :
    pmGet (pmSet m k v) k' = pmGet m k' := by
  have hk : ¬ k = k' := fun e => h e.symm
  induction m with
  | nil => simp [pmSet, pmGet, hk]
  | cons p t ih =>
    by_cases hp : p.1 = k
    · have hp' : ¬ p.1 = k' := by rw [hp]; exact hk
      simp [pmSet, pmGet, hp, hk, hp']
    · simp only [pmSet, if_neg hp]
      by_cases hq : p.1 = k'
      · simp [pmGet, hq]
      · simp [pmGet, hq, ih]

/-- The `contains` check agrees with `get` returning a value. -/
theorem pmContains_eq_isSome {K V : Type} [DecidableEq K] (m : PMap K V)
    (k : K) : pmContains m k = (pmGet m k).isSome := by
  induction m with
  | nil => rfl
  | cons p t ih =>
    by_cases h : p.1 = k <;> simp [pmContains, pmGet, h, ih]

/-! ## Lemmas about allowance keys -/

/-- If two colon-separated concatenations agree and neither left part
contains the separator, the parts agree. -/
theorem sep_append_inj {l1 l2 l3 l4 : List Char}
    (h1 : ':' ∉ l1) (h3 : ':' ∉ l3)
    (h : l1 ++ ':' :: l2 = l3 ++ ':' :: l4) : l1 = l3 ∧ l2 = l4 := by
  induction l1 generalizing l3 with
  | nil =>
    cases l3 with
    | nil =>
      refine ⟨rfl, ?_⟩
      simpa using h
    | cons c t3 =>
      simp only [List.nil_append, List.cons_append, List.cons.injEq] at h
      exact absurd (h.1 ▸ List.mem_cons_self c t3) h3
  | cons c t ih =>
    cases l3 with
    | nil =>
      simp only [List.nil_append, List.cons_append, List.cons.injEq] at h
      exact absurd (h.1 ▸ List.mem_cons_self c t) h1
    | cons d t3 =>
      simp only [List.cons_append, List.cons.injEq] at h
      have h1' : ':' ∉ t := fun hm => h1 (List.mem_cons_of_mem c hm)
      have h3' : ':' ∉ t3 := fun hm => h3 (List.mem_cons_of_mem d hm)
      obtain ⟨he, hl⟩ := ih h1' h3' h.2
      exact ⟨by rw [h.1, he], hl⟩

/-- The character data of an allowance key is the owner's characters, a
colon, then the escrow account's characters. -/
theorem getAllowanceKey_data (o e : AccountId) :
    (getAllowanceKey o e).data = o.data ++ ':' :: e.data := by
  simp [getAllowanceKey, String.data_append]

/-- Allowance keys of pairs with colon-free owner ids are injective. -/
theorem getAllowanceKey_inj {o1 e1 o2 e2 : AccountId}
    (ho1 : ':' ∉ o1.data) (ho2 : ':' ∉ o2.data)
    (h : getAllowanceKey o1 e1 = getAllowanceKey o2 e2) :
    o1 = o2 ∧ e1 = e2 := by
  have hd := congrArg String.data h
  rw [getAllowanceKey_data, getAllowanceKey_data] at hd
  obtain ⟨ha, hb⟩ := sep_append_inj ho1 ho2 hd
  exact ⟨String.ext ha, String.ext hb⟩

/-- On the guarded uses of the contract (`b ≤ a`, `a` a stored `u128`),
`u128.sub` is exact subtraction. -/
theorem u128sub_eq {a b : Nat} (hle : b ≤ a) (hlt : a < U128_MOD) :
    u128sub a b = a - b := by
  unfold u128sub
  rw [Nat.add_sub_assoc hle, Nat.add_mod_left]
  exact Nat.mod_eq_of_lt (Nat.lt_of_le_of_lt (Nat.sub_le a b) hlt)

/-! ## Claim theorems -/

/-- C1: the conservation claim fails on the code.  Concrete run: mint the
10-token supply to `alice` (sum of balances `10 = TOTAL_SUPPLY`), then a
successful self-call `transfer_from("alice", "alice", 5)` by `alice`
leaves `alice` with 15 tokens, so the sum of all balances becomes 15,
not the total supply: `transfer_from` reads both balances before either
write, and for `new_owner_id = owner_id` the crediting write overwrites
the debiting write. -/
theorem C1_self_transfer_breaks_conservation :
    mint "alice" emptyContract =
      Except.ok { hasBeenMinted := false, minted := true, balanceRegistry := [("alice", 10)],
                  allowanceRegistry := [] }
    ∧ sumBalances { hasBeenMinted := false, minted := true, balanceRegistry := [("alice", 10)],
                    allowanceRegistry := [] } = TOTAL_SUPPLY
    ∧ transfer_from "alice" "alice" "alice" 5
        { hasBeenMinted := false, minted := true, balanceRegistry := [("alice", 10)],
          allowanceRegistry := [] } =
      Except.ok { hasBeenMinted := false, minted := true, balanceRegistry := [("alice", 15)],
                  allowanceRegistry := [] }
    ∧ sumBalances { hasBeenMinted := false, minted := true, balanceRegistry := [("alice", 15)],
                    allowanceRegistry := [] } = 15
    ∧ TOTAL_SUPPLY = 10 :=
  ⟨rfl, rfl, rfl, rfl, rfl⟩

/-- C2 counterexample: the distinct pairs `("a:b", "c")` and
`("a", "b:c")` share the allowance key `"a:b:c"`, so a `set_allowance`
call by owner `"a:b"` for escrow `"c"` changes the allowance observed by
`get_allowance("a", "b:c")` from 0 to 5. -/
theorem C2_allowance_key_collision :
    ((("a:b" : AccountId), ("c" : AccountId)) ≠ ("a", "b:c"))
    ∧ set_allowance "a:b" "c" 5 emptyContract =
        Except.ok { hasBeenMinted := false, minted := false, balanceRegistry := [],
                    allowanceRegistry := [("a:b:c", 5)] }
    ∧ get_allowance "a" "b:c" emptyContract = 0
    ∧ get_allowance "a" "b:c"
        { hasBeenMinted := false, minted := false, balanceRegistry := [],
          allowanceRegistry := [("a:b:c", 5)] } = 5 :=
  ⟨by decide, rfl, rfl, rfl⟩

/-- C2 (amended): for distinct ordered pairs whose owner ids contain no
`':'` character, recording an allowance with `set_allowance` for one
pair leaves the allowance observed by `get_allowance` at the other pair
unchanged. -/
theorem C2_allowance_pairs_independent {o1 e1 o2 e2 : AccountId}
    (ho1 : ':' ∉ o1.data) (ho2 : ':' ∉ o2.data)
    (hne : (o1, e1) ≠ (o2, e2)) (a : Amount) (s s' : Contract)
    (hcall : set_allowance o1 e1 a s = Except.ok s') :
    get_allowance o2 e2 s' = get_allowance o2 e2 s := by
  unfold set_allowance at hcall
  split at hcall
  · simp only [Except.ok.injEq] at hcall
    have hkey : getAllowanceKey o2 e2 ≠ getAllowanceKey o1 e1 := by
      intro hk
      obtain ⟨h1, h2⟩ := getAllowanceKey_inj ho2 ho1 hk
      exact hne (by rw [h1, h2])
    rw [← hcall]
    simp [get_allowance, pmGetD, pmGet_pmSet_ne _ _ hkey]
  · exact Except.noConfusion hcall

/-- Witness for C2 (amended): owner `"a"` granting escrow `"b"` an
allowance of 5 does not change the allowance of the pair `("a", "c")`. -/
theorem C2_allowance_pairs_independent_witness :
    get_allowance "a" "c"
      { hasBeenMinted := false, minted := false, balanceRegistry := [],
        allowanceRegistry := [("a:b", 5)] }
    = get_allowance "a" "c" emptyContract :=
  @C2_allowance_pairs_independent "a" "b" "a" "c" (by decide)
    (by decide) (by decide) 5 emptyContract
    { hasBeenMinted := false, minted := false, balanceRegistry := [],
      allowanceRegistry := [("a:b", 5)] } rfl

/-- C3: a transfer of an amount strictly greater than the caller's
current balance (equivalently a `transfer_from` with the caller as
`owner_id`) fails with the insufficient-balance error.  In this model a
failed call produces no post-state at all — every balance in the
registry is exactly as before the call (NEAR rolls back all state
mutations of an aborted call). -/
theorem C3_insufficient_balance_rejected (caller new_owner : AccountId)
    (amount b : Amount) (s : Contract)
    (hb : pmGet s.balanceRegistry caller = some b) (hlt : b < amount) :
    transfer caller new_owner amount s =
      Except.error ERR_INSUFFICIENT_BALANCE
    ∧ transfer_from caller caller new_owner amount s =
      Except.error ERR_INSUFFICIENT_BALANCE := by
  have hc : pmContains s.balanceRegistry caller = true := by
    rw [pmContains_eq_isSome, hb]; rfl
  have hd : pmGetD s.balanceRegistry caller 0 = b := by
    rw [pmGetD, hb]; rfl
  have hpos : amount > 0 := Nat.lt_of_le_of_lt (Nat.zero_le b) hlt
  have h : transfer_from caller caller new_owner amount s =
      Except.error ERR_INSUFFICIENT_BALANCE := by
    unfold transfer_from
    simp [hc, hd, hpos, Nat.not_le.mpr hlt]
  exact ⟨h, h⟩

/-- Witness for C3: with `alice` holding the whole supply of 10, a
transfer of 11 fails with the insufficient-balance error. -/
theorem C3_insufficient_balance_rejected_witness :
    transfer "alice" "bob" 11
      { hasBeenMinted := false, minted := true, balanceRegistry := [("alice", 10)],
        allowanceRegistry := [] } =
      Except.error ERR_INSUFFICIENT_BALANCE :=
  (C3_insufficient_balance_rejected "alice" "bob" 11 10
    { hasBeenMinted := false, minted := true, balanceRegistry := [("alice", 10)],
      allowanceRegistry := [] } rfl (by decide)).1

/-- C4: an escrow call (`predecessor ≠ owner_id`) that passes the amount
and balance checks fails with the invalid-escrow-account error when no
allowance record exists for `(owner_id, predecessor)`, and with the
insufficient-allowance error when the recorded allowance is below the
requested amount.  A failed call produces no post-state, so no balance
and no allowance entry is mutated. -/
theorem C4_unauthorized_escrow_rejected (pred owner new_owner : AccountId)
    (amount b : Amount) (s : Contract) (hne : owner ≠ pred)
    (hb : pmGet s.balanceRegistry owner = some b) (hge : amount ≤ b)
    (hpos : 0 < amount) :
    (pmGet s.allowanceRegistry (getAllowanceKey owner pred) = none →
      transfer_from pred owner new_owner amount s =
        Except.error ERR_INVALID_ESCROW_ACCOUNT)
    ∧ (∀ a, pmGet s.allowanceRegistry (getAllowanceKey owner pred) = some a →
        a < amount →
        transfer_from pred owner new_owner amount s =
          Except.error ERR_INSUFFICIENT_ESCROW_BALANCE) := by
  have hc : pmContains s.balanceRegistry owner = true := by
    rw [pmContains_eq_isSome, hb]; rfl
  have hd : pmGetD s.balanceRegistry owner 0 = b := by
    rw [pmGetD, hb]; rfl
  constructor
  · intro hnone
    have hac : pmContains s.allowanceRegistry
        (getAllowanceKey owner pred) = false := by
      rw [pmContains_eq_isSome, hnone]; rfl
    unfold transfer_from
    simp [hc, hd, hge, hpos, hne, hac]
  · intro a ha hlt
    have hac : pmContains s.allowanceRegistry
        (getAllowanceKey owner pred) = true := by
      rw [pmContains_eq_isSome, ha]; rfl
    have had : pmGetD s.allowanceRegistry (getAllowanceKey owner pred) 0 = a := by
      rw [pmGetD, ha]; rfl
    unfold transfer_from
    simp [hc, hd, hge, hpos, hne, hac, had, Nat.not_le.mpr hlt]

/-- Witness for C4: with `alice` holding 10 and `bob` calling, both
failure cases are hit — no allowance record at all, and a recorded
allowance of 3 against a requested amount of 5. -/
theorem C4_unauthorized_escrow_rejected_witness :
    transfer_from "bob" "alice" "carol" 5
      { hasBeenMinted := false, minted := true, balanceRegistry := [("alice", 10)],
        allowanceRegistry := [] } =
      Except.error ERR_INVALID_ESCROW_ACCOUNT
    ∧ transfer_from "bob" "alice" "carol" 5
        { hasBeenMinted := false, minted := true, balanceRegistry := [("alice", 10)],
          allowanceRegistry := [("alice:bob", 3)] } =
      Except.error ERR_INSUFFICIENT_ESCROW_BALANCE :=
  ⟨(C4_unauthorized_escrow_rejected "bob" "alice" "carol" 5 10
      { hasBeenMinted := false, minted := true, balanceRegistry := [("alice", 10)],
        allowanceRegistry := [] }
      (by decide) rfl (by decide) (by decide)).1 rfl,
   (C4_unauthorized_escrow_rejected "bob" "alice" "carol" 5 10
      { hasBeenMinted := false, minted := true, balanceRegistry := [("alice", 10)],
        allowanceRegistry := [("alice:bob", 3)] }
      (by decide) rfl (by decide) (by decide)).2 3 rfl (by decide)⟩

/-- C5: `set_allowance` overwrites rather than accumulates — after
setting the allowance of the same escrow account first to `a` and then
to `b` (both positive), the owner's recorded allowance for that escrow
account is exactly `b`. -/
theorem C5_set_allowance_overwrites (owner spender : AccountId)
    (a b : Amount) (_ha : 0 < a) (hb : 0 < b) (s s1 s2 : Contract)
    (_h1 : set_allowance owner spender a s = Except.ok s1)
    (h2 : set_allowance owner spender b s1 = Except.ok s2) :
    get_allowance owner spender s2 = b := by
  unfold set_allowance at h2
  rw [if_pos hb] at h2
  simp only [Except.ok.injEq] at h2
  rw [← h2]
  simp [get_allowance, pmGetD, pmGet_pmSet_self]

/-- Witness for C5: setting `bob`'s allowance to 50 and then to 30
leaves it at exactly 30. -/
theorem C5_set_allowance_overwrites_witness :
    get_allowance "alice" "bob"
      { hasBeenMinted := false, minted := false, balanceRegistry := [],
        allowanceRegistry := [("alice:bob", 30)] } = 30 :=
  C5_set_allowance_overwrites "alice" "bob" 50 30 (by decide) (by decide)
    emptyContract
    { hasBeenMinted := false, minted := false, balanceRegistry := [],
      allowanceRegistry := [("alice:bob", 50)] }
    { hasBeenMinted := false, minted := false, balanceRegistry := [],
      allowanceRegistry := [("alice:bob", 30)] }
    rfl rfl

/-- C6 counterexample: `init` guards the storage key `'m'` while the
non-spec `mint` guards the distinct key `'minted'`, so the two one-time
guards do not exclude each other.  After a completed `init` by `alice`,
a `mint` for `bob` does not fail with the already-minted error: it
succeeds and assigns a fresh `TOTAL_SUPPLY` to `bob`, leaving the sum
of balances at 20 — twice the supply established by the first call. -/
theorem C6_cross_initialization_not_blocked :
    init "alice" emptyContract =
      Except.ok { hasBeenMinted := true, minted := false,
                  balanceRegistry := [("alice", 10)],
                  allowanceRegistry := [] }
    ∧ mint "bob" { hasBeenMinted := true, minted := false,
                   balanceRegistry := [("alice", 10)],
                   allowanceRegistry := [] } =
      Except.ok { hasBeenMinted := true, minted := true,
                  balanceRegistry := [("alice", 10), ("bob", 10)],
                  allowanceRegistry := [] }
    ∧ sumBalances { hasBeenMinted := true, minted := true,
                    balanceRegistry := [("alice", 10), ("bob", 10)],
                    allowanceRegistry := [] } = 20
    ∧ TOTAL_SUPPLY = 10 :=
  ⟨rfl, rfl, rfl, rfl⟩

/-- C6 (amended): each initializer runs at most once.  A second `init`
after a completed `init` fails with the already-minted error, as does a
second `mint` after a completed `mint`; in both cases the failed call
produces no post-state, so the first owner still holds the whole
`TOTAL_SUPPLY`.  (Because `init` and `mint` guard distinct storage
keys — `'m'` and `'minted'` — a `mint` following an `init`, or an
`init` following a `mint`, is not blocked.) -/
theorem C6_same_initializer_runs_once (c1 c2 : AccountId) (s s1 : Contract) :
    (init c1 s = Except.ok s1 →
      init c2 s1 = Except.error ERR_TOKEN_ALREADY_MINTED
      ∧ get_balance c1 s1 = Except.ok TOTAL_SUPPLY)
    ∧ (mint c1 s = Except.ok s1 →
      mint c2 s1 = Except.error ERR_TOKEN_ALREADY_MINTED
      ∧ get_balance c1 s1 = Except.ok TOTAL_SUPPLY) := by
  constructor
  · intro h
    unfold init at h
    by_cases hm : s.hasBeenMinted
    · rw [if_pos hm] at h
      exact Except.noConfusion h
    · rw [if_neg hm] at h
      simp only [Except.ok.injEq] at h
      have hm1 : s1.hasBeenMinted = true := by rw [← h]
      have hget : pmGet s1.balanceRegistry c1 = some TOTAL_SUPPLY := by
        rw [← h]
        exact pmGet_pmSet_self _ _ _
      refine ⟨?_, ?_⟩
      · unfold init
        rw [if_pos hm1]
      · unfold get_balance
        rw [pmContains_eq_isSome, hget]
        simp [pmGetD, hget]
  · intro h
    unfold mint at h
    by_cases hm : s.minted
    · rw [if_pos hm] at h
      exact Except.noConfusion h
    · rw [if_neg hm] at h
      simp only [Except.ok.injEq] at h
      have hm1 : s1.minted = true := by rw [← h]
      have hget : pmGet s1.balanceRegistry c1 = some TOTAL_SUPPLY := by
        rw [← h]
        exact pmGet_pmSet_self _ _ _
      refine ⟨?_, ?_⟩
      · unfold mint
        rw [if_pos hm1]
      · unfold get_balance
        rw [pmContains_eq_isSome, hget]
        simp [pmGetD, hget]

/-- Witness for C6 (amended), both halves at concrete inputs: a second
`init` after `init` by `alice` fails and `alice` keeps the supply, and
a second `mint` after `mint` for `carol` fails and `carol` keeps the
supply. -/
theorem C6_same_initializer_runs_once_witness :
    (init "bob" { hasBeenMinted := true, minted := false,
                  balanceRegistry := [("alice", 10)],
                  allowanceRegistry := [] } =
        Except.error ERR_TOKEN_ALREADY_MINTED
      ∧ get_balance "alice" { hasBeenMinted := true, minted := false,
                              balanceRegistry := [("alice", 10)],
                              allowanceRegistry := [] } =
        Except.ok TOTAL_SUPPLY)
    ∧ (mint "dan" { hasBeenMinted := false, minted := true,
                    balanceRegistry := [("carol", 10)],
                    allowanceRegistry := [] } =
        Except.error ERR_TOKEN_ALREADY_MINTED
      ∧ get_balance "carol" { hasBeenMinted := false, minted := true,
                              balanceRegistry := [("carol", 10)],
                              allowanceRegistry := [] } =
        Except.ok TOTAL_SUPPLY) :=
  ⟨(C6_same_initializer_runs_once "alice" "bob" emptyContract
      { hasBeenMinted := true, minted := false,
        balanceRegistry := [("alice", 10)],
        allowanceRegistry := [] }).1 rfl,
   (C6_same_initializer_runs_once "carol" "dan" emptyContract
      { hasBeenMinted := false, minted := true,
        balanceRegistry := [("carol", 10)],
        allowanceRegistry := [] }).2 rfl⟩

/-- C7: on every successful escrow `transfer_from` (caller distinct from
the owner) with recorded allowance `a`, the requested amount was covered
(`amount ≤ a`) and the stored allowance for `(owner_id, predecessor)`
after the call is exactly `a - amount`.  The hypothesis `a < U128_MOD`
states that the stored allowance is a `u128` value. -/
theorem C7_escrow_decrements_allowance (pred owner new_owner : AccountId)
    (amount a : Amount) (s s' : Contract) (hne : owner ≠ pred)
    (ha : pmGet s.allowanceRegistry (getAllowanceKey owner pred) = some a)
    (haw : a < U128_MOD)
    (hcall : transfer_from pred owner new_owner amount s = Except.ok s') :
    amount ≤ a ∧
    pmGet s'.allowanceRegistry (getAllowanceKey owner pred) =
      some (a - amount) := by
  have hac : pmContains s.allowanceRegistry
      (getAllowanceKey owner pred) = true := by
    rw [pmContains_eq_isSome, ha]; rfl
  have had : pmGetD s.allowanceRegistry (getAllowanceKey owner pred) 0 = a := by
    rw [pmGetD, ha]; rfl
  unfold transfer_from at hcall
  by_cases hpos : amount > 0
  · rw [if_pos hpos] at hcall
    by_cases hc : pmContains s.balanceRegistry owner
    · rw [if_pos hc] at hcall
      by_cases hge : pmGetD s.balanceRegistry owner 0 ≥ amount
      · rw [if_pos hge] at hcall
        rw [if_pos hne] at hcall
        by_cases hamt : a ≥ amount
        · simp only [hac, had, hamt, if_true, ge_iff_le, ite_true,
            Except.ok.injEq] at hcall
          refine ⟨hamt, ?_⟩
          rw [← hcall]
          show pmGet (pmSet s.allowanceRegistry _ (u128sub a amount)) _ =
            some (a - amount)
          rw [pmGet_pmSet_self, u128sub_eq hamt haw]
        · simp only [hac, had, hamt, if_true, ge_iff_le, ite_false,
            if_false] at hcall
          exact Except.noConfusion hcall
      · rw [if_neg hge] at hcall
        exact Except.noConfusion hcall
    · rw [if_neg hc] at hcall
      exact Except.noConfusion hcall
  · rw [if_neg hpos] at hcall
    exact Except.noConfusion hcall

/-- Witness for C7: `bob`, holding an allowance of 8 on `alice`'s
account, transfers 5 of `alice`'s tokens to `carol`; the stored
allowance of the pair afterwards is exactly `8 - 5 = 3`. -/
theorem C7_escrow_decrements_allowance_witness :
    (5 : Amount) ≤ 8
    ∧ pmGet ({ hasBeenMinted := false, minted := true,
               balanceRegistry := [("alice", 5), ("carol", 5)],
               allowanceRegistry := [("alice:bob", 3)] :
               Contract }).allowanceRegistry
        (getAllowanceKey "alice" "bob") = some (8 - 5) :=
  C7_escrow_decrements_allowance "bob" "alice" "carol" 5 8
    { hasBeenMinted := false, minted := true, balanceRegistry := [("alice", 10)],
      allowanceRegistry := [("alice:bob", 8)] }
    { hasBeenMinted := false, minted := true, balanceRegistry := [("alice", 5), ("carol", 5)],
      allowanceRegistry := [("alice:bob", 3)] }
    (by decide) rfl (by decide) rfl

/-- C8: `get_balance` fails with the unknown-account error on an account
with no entry in the balance registry, and returns exactly the stored
amount on an account that has an entry — it never silently returns 0
for an unknown account. -/
theorem C8_get_balance_requires_registration (o : AccountId) (s : Contract) :
    (pmGet s.balanceRegistry o = none →
      get_balance o s = Except.error ERR_INVALID_ACCOUNT)
    ∧ (∀ b, pmGet s.balanceRegistry o = some b →
        get_balance o s = Except.ok b) := by
  constructor
  · intro h
    unfold get_balance
    rw [pmContains_eq_isSome, h]
    rfl
  · intro b h
    unfold get_balance
    rw [pmContains_eq_isSome, h]
    simp [pmGetD, h]

/-- Witness for C8: `bob` (never registered) is rejected while `alice`'s
stored balance of 10 is returned verbatim. -/
theorem C8_get_balance_requires_registration_witness :
    get_balance "bob" { hasBeenMinted := false, minted := true, balanceRegistry := [("alice", 10)],
                        allowanceRegistry := [] } =
      Except.error ERR_INVALID_ACCOUNT
    ∧ get_balance "alice" { hasBeenMinted := false, minted := true,
                            balanceRegistry := [("alice", 10)],
                            allowanceRegistry := [] } =
      Except.ok 10 :=
  ⟨(C8_get_balance_requires_registration "bob"
      { hasBeenMinted := false, minted := true, balanceRegistry := [("alice", 10)],
        allowanceRegistry := [] }).1 rfl,
   (C8_get_balance_requires_registration "alice"
      { hasBeenMinted := false, minted := true, balanceRegistry := [("alice", 10)],
        allowanceRegistry := [] }).2 10 rfl⟩

/-- A self-call of `transfer_from` (caller equal to `owner_id`) computes
the same outcome from any allowance-registry contents, and carries the
pre-state's allowance registry through unchanged. -/
theorem transfer_from_self_char (caller new_owner : AccountId)
    (amount : Amount) (s : Contract) (A : PMap String Amount) :
    transfer_from caller caller new_owner amount
      { hasBeenMinted := s.hasBeenMinted, minted := s.minted, balanceRegistry := s.balanceRegistry,
        allowanceRegistry := A }
    = (transfer_from caller caller new_owner amount s).map
        (fun t => { hasBeenMinted := t.hasBeenMinted, minted := t.minted, balanceRegistry := t.balanceRegistry,
                    allowanceRegistry := A }) := by
  have hself : ¬ (caller ≠ caller) := fun h => h rfl
  unfold transfer_from
  simp only [hself, ite_false, if_neg]
  split_ifs <;> rfl

/-- C9: an owner-initiated transfer (`owner_id` equal to the caller, the
path taken by `transfer`) bypasses the allowance checks entirely: its
success/failure outcome and the resulting balances are identical for
any two allowance-registry contents, and a successful call leaves the
allowance registry unchanged. -/
theorem C9_self_transfer_bypasses_allowances (caller new_owner : AccountId)
    (amount : Amount) (s : Contract) (A : PMap String Amount) :
    (∀ e, transfer_from caller caller new_owner amount s = Except.error e ↔
      transfer_from caller caller new_owner amount
        { hasBeenMinted := s.hasBeenMinted, minted := s.minted, balanceRegistry := s.balanceRegistry,
          allowanceRegistry := A } = Except.error e)
    ∧ (∀ t, transfer_from caller caller new_owner amount s = Except.ok t →
        t.allowanceRegistry = s.allowanceRegistry
        ∧ transfer_from caller caller new_owner amount
            { hasBeenMinted := s.hasBeenMinted, minted := s.minted, balanceRegistry := s.balanceRegistry,
              allowanceRegistry := A } =
          Except.ok { hasBeenMinted := t.hasBeenMinted, minted := t.minted,
                      balanceRegistry := t.balanceRegistry,
                      allowanceRegistry := A }) := by
  have hchar := transfer_from_self_char caller new_owner amount s A
  constructor
  · intro e
    rw [hchar]
    cases htf : transfer_from caller caller new_owner amount s with
    | error e1 => simp [Except.map]
    | ok t => simp [Except.map]
  · intro t htf
    constructor
    · have hid : transfer_from caller caller new_owner amount s
          = (transfer_from caller caller new_owner amount s).map
              (fun u => { hasBeenMinted := u.hasBeenMinted, minted := u.minted,
                          balanceRegistry := u.balanceRegistry,
                          allowanceRegistry := s.allowanceRegistry }) :=
        transfer_from_self_char caller new_owner amount s s.allowanceRegistry
      rw [htf] at hid
      simp only [Except.map, Except.ok.injEq] at hid
      have h2 := congrArg Contract.allowanceRegistry hid
      exact h2
    · rw [hchar, htf]; rfl

/-- Witness for C9: with `alice` holding 10, the self-transfer of 5 to
`bob` succeeds identically whether the allowance registry holds
`[("k", 7)]` or `[("q", 1)]`, keeps each registry as it was, and moves
only balances. -/
theorem C9_self_transfer_bypasses_allowances_witness :
    ({ hasBeenMinted := false, minted := true, balanceRegistry := [("alice", 5), ("bob", 5)],
       allowanceRegistry := [("k", 7)] : Contract }).allowanceRegistry =
      ({ hasBeenMinted := false, minted := true, balanceRegistry := [("alice", 10)],
         allowanceRegistry := [("k", 7)] : Contract }).allowanceRegistry
    ∧ transfer_from "alice" "alice" "bob" 5
        { hasBeenMinted := false, minted := true, balanceRegistry := [("alice", 10)],
          allowanceRegistry := [("q", 1)] } =
      Except.ok { hasBeenMinted := false, minted := true,
                  balanceRegistry := [("alice", 5), ("bob", 5)],
                  allowanceRegistry := [("q", 1)] } :=
  (C9_self_transfer_bypasses_allowances "alice" "bob" 5
    { hasBeenMinted := false, minted := true, balanceRegistry := [("alice", 10)],
      allowanceRegistry := [("k", 7)] }
    [("q", 1)]).2
    { hasBeenMinted := false, minted := true, balanceRegistry := [("alice", 5), ("bob", 5)],
      allowanceRegistry := [("k", 7)] }
    rfl

/-- C10: `get_allowance` is total — it is a plain function with no
failure outcome — and returns exactly 0 for every pair with no
allowance record, unlike `get_balance`, which rejects unknown
accounts. -/
theorem C10_get_allowance_defaults_to_zero (o e : AccountId) (s : Contract)
    (h : pmGet s.allowanceRegistry (getAllowanceKey o e) = none) :
    get_allowance o e s = 0 := by
  unfold get_allowance pmGetD
  rw [h]
  rfl

/-- Witness for C10: on a fresh contract the allowance of
`("alice", "bob")` reads as 0. -/
theorem C10_get_allowance_defaults_to_zero_witness :
    get_allowance "alice" "bob" emptyContract = 0 :=
  C10_get_allowance_defaults_to_zero "alice" "bob" emptyContract rfl
